import Mathlib

/-!
Verification of the n8n Spryker node (n8n-nodes-spryker).

This file shallowly embeds the parts of the TypeScript source that the
checked claims are about:

* `src/nodes/services/authService.ts` — token cache, token acquisition,
  token refresh, and the retry loop of `getValidAccessToken`;
* `src/nodes/utils/request.ts` — the request builder (`SprykerRequestBuilder`)
  and the request executor (`executeSprykerRequest`) with its 401 retry;
* `src/nodes/services/cmsPageService.ts` and
  `src/nodes/services/abstractProductService.ts` — response transformation
  and field extraction;
* `src/nodes/Spryker.node.ts` — the per-item execution loop.

JavaScript values are modelled by the inductive `Value` (with an explicit
`undefined` for JavaScript's `undefined`); objects and the token cache `Map`
are modelled as ordered association lists with insert-or-replace update,
matching JS object/Map key semantics.  Network I/O is modelled by a script:
a list of responses consumed one per outgoing request, so the number of
network requests a code path performs is the number of script entries it
consumes, and the model records every outgoing call.
-/

set_option maxRecDepth 8192

namespace SprykerModel

/-- JavaScript runtime values (JSON values plus `undefined`).  `num` carries
an `Int`: all numbers the claims touch are integers. -/
inductive Value where
  | undefined : Value
  | null : Value
  | bool : Bool → Value
  | num : Int → Value
  | str : String → Value
  | arr : List Value → Value
  | obj : List (String × Value) → Value

/-- JavaScript truthiness (`NaN` is not representable in the `Int` model). -/
def truthy : Value → Bool
  | .undefined => false
  | .null => false
  | .bool b => b
  | .num n => n != 0
  | .str s => s != ""
  | .arr _ => true
  | .obj _ => true

/-- First-occurrence lookup in an association list (JS objects and `Map`s
keep keys unique, so first occurrence is the occurrence). -/
def lookupKey {α : Type} : List (String × α) → String → Option α
  | [], _ => none
  | (k, v) :: rest, key => if k = key then some v else lookupKey rest key

/-- JS assignment `o[key] = v` / `Map.set`: replace in place if the key is
present, else append (insertion order is preserved). -/
def upsert {α : Type} : List (String × α) → String → α → List (String × α)
  | [], key, v => [(key, v)]
  | (k, w) :: rest, key, v =>
    if k = key then (k, v) :: rest else (k, w) :: upsert rest key v

/-- JS `delete o[key]` / `Map.delete`. -/
def deleteKey {α : Type} : List (String × α) → String → List (String × α)
  | [], _ => []
  | (k, w) :: rest, key =>
    if k = key then deleteKey rest key else (k, w) :: deleteKey rest key

@[simp] theorem lookupKey_nil {α : Type} (key : String) :
    lookupKey ([] : List (String × α)) key = none := rfl

@[simp] theorem lookupKey_cons {α : Type} (k : String) (v : α) (rest : List (String × α))
    (key : String) :
    lookupKey ((k, v) :: rest) key = if k = key then some v else lookupKey rest key := rfl

@[simp] theorem lookupKey_upsert_self {α : Type} (l : List (String × α)) (key : String) (v : α) :
    lookupKey (upsert l key v) key = some v := by
  induction l with
  | nil => simp [upsert]
  | cons hd tl ih =>
    obtain ⟨k, w⟩ := hd
    by_cases h : k = key <;> simp [upsert, h, ih]

theorem lookupKey_upsert_ne {α : Type} (l : List (String × α)) (key k' : String) (v : α)
    (h : k' ≠ key) : lookupKey (upsert l key v) k' = lookupKey l k' := by
  induction l with
  | nil => simp [upsert, lookupKey, Ne.symm h]
  | cons hd tl ih =>
    obtain ⟨k, w⟩ := hd
    by_cases hk : k = key
    · subst hk
      simp [upsert, lookupKey, Ne.symm h]
    · simp only [upsert, if_neg hk, lookupKey_cons, ih]

@[simp] theorem lookupKey_deleteKey_self {α : Type} (l : List (String × α)) (key : String) :
    lookupKey (deleteKey l key) key = none := by
  induction l with
  | nil => simp [deleteKey]
  | cons hd tl ih =>
    obtain ⟨k, w⟩ := hd
    by_cases h : k = key <;> simp [deleteKey, h, ih]

/-- Property access `v[key]`, yielding `undefined` for a missing key or a
non-object receiver.  (In the modelled code paths the receiver is never
`null`/`undefined`, so the JS `TypeError` case does not arise.) -/
def getProp (v : Value) (key : String) : Value :=
  match v with
  | .obj fields => (lookupKey fields key).getD .undefined
  | _ => .undefined

/-- Object spread `{...base, ...v}` restricted to the way the source uses it:
spreading an object copies its own enumerable properties in order; spreading
a non-object contributes nothing (the source only ever spreads JSON:API
`attributes` objects and whole responses). -/
def spreadFields (base : List (String × Value)) (v : Value) : List (String × Value) :=
  match v with
  | .obj fields => fields.foldl (fun acc kv => upsert acc kv.1 kv.2) base
  | _ => base

/-! ## JavaScript number printing and `encodeURIComponent`

The source calls `pageSize.toString()` / `offset.toString()` and
`encodeURIComponent`; both are host-runtime functions, embedded here for the
integer-valued numbers the node produces. -/

/-- Decimal digits of `n`, least significant first; `fuel` bounds recursion
(structurally) and any `fuel ≥ n ≥ 1` yields all digits. -/
def natDigitsRevAux : Nat → Nat → List Char
  | 0, _ => []
  | fuel + 1, n =>
    if n = 0 then [] else Char.ofNat (48 + n % 10) :: natDigitsRevAux fuel (n / 10)

/-- Decimal rendering of a natural number, as JS `Number.prototype.toString`
renders a non-negative integer. -/
def natToString (n : Nat) : String :=
  if n = 0 then "0" else String.mk (natDigitsRevAux n n).reverse

/-- JS `Number.prototype.toString` on an integer-valued number. -/
def jsIntToString (n : Int) : String :=
  if n < 0 then "-" ++ natToString (-n).toNat else natToString n.toNat

theorem natDigitsRevAux_ne_nil (fuel n : Nat) (hn : n ≠ 0) :
    natDigitsRevAux (fuel + 1) n ≠ [] := by
  simp [natDigitsRevAux, hn]

theorem natToString_ne_empty (n : Nat) : natToString n ≠ "" := by
  unfold natToString
  by_cases h : n = 0
  · simp [h]
  · simp only [h, if_false]
    intro hc
    obtain ⟨m, hm⟩ := Nat.exists_eq_succ_of_ne_zero h
    have h2 := natDigitsRevAux_ne_nil m n h
    rw [show m + 1 = n from hm.symm] at h2
    have h3 : (natDigitsRevAux n n).reverse = [] := by
      have := congrArg String.data hc
      simpa using this
    exact h2 (by simpa using h3)

theorem jsIntToString_ne_empty (n : Int) : jsIntToString n ≠ "" := by
  unfold jsIntToString
  by_cases h : n < 0
  · simp only [h, if_true]
    intro hc
    have := congrArg String.data hc
    simp [String.data_append] at this
  · simp [h, natToString_ne_empty]

/-- One percent-encoded byte, e.g. `%2C`. -/
def percentByteChars (b : Nat) : List Char :=
  ['%', Char.ofNat (if b / 16 % 16 < 10 then 48 + b / 16 % 16 else 55 + b / 16 % 16),
   Char.ofNat (if b % 16 < 10 then 48 + b % 16 else 55 + b % 16)]

/-- UTF-8 bytes of a code point. -/
def utf8Bytes (n : Nat) : List Nat :=
  if n < 128 then [n]
  else if n < 2048 then [192 + n / 64, 128 + n % 64]
  else if n < 65536 then [224 + n / 4096, 128 + n / 64 % 64, 128 + n % 64]
  else [240 + n / 262144, 128 + n / 4096 % 64, 128 + n / 64 % 64, 128 + n % 64]

/-- The characters `encodeURIComponent` leaves unescaped besides
alphanumerics. -/
def uriUnreservedChars : List Char := ['-', '_', '.', '!', '~', '*', Char.ofNat 39, '(', ')']

/-- Encoding of a single character under `encodeURIComponent`. -/
def encodeURIComponentChar (c : Char) : List Char :=
  if c.isAlphanum || uriUnreservedChars.contains c then [c]
  else ((utf8Bytes c.toNat).map percentByteChars).flatten

/-- The host's `encodeURIComponent`. -/
def encodeURIComponent (s : String) : String :=
  String.mk (s.data.map encodeURIComponentChar).flatten

theorem utf8Bytes_ne_nil (n : Nat) : utf8Bytes n ≠ [] := by
  unfold utf8Bytes
  split <;> simp_all <;> split <;> simp_all <;> split <;> simp_all

theorem encodeURIComponentChar_ne_nil (c : Char) : encodeURIComponentChar c ≠ [] := by
  unfold encodeURIComponentChar
  split
  · simp
  · intro hc
    obtain ⟨b, rest, hb⟩ := List.exists_cons_of_ne_nil (utf8Bytes_ne_nil c.toNat)
    rw [hb] at hc
    simp [percentByteChars] at hc

theorem encodeURIComponent_ne_empty (s : String) (h : s ≠ "") :
    encodeURIComponent s ≠ "" := by
  intro hc
  apply h
  have hdata := congrArg String.data hc
  simp only [encodeURIComponent] at hdata
  cases hs : s.data with
  | nil =>
    cases s with
    | mk d => cases hs; rfl
  | cons c cs =>
    rw [hs] at hdata
    simp [List.flatten] at hdata
    exact absurd hdata.1 (encodeURIComponentChar_ne_nil c)

/-! ## Request builder (`src/nodes/utils/request.ts`, `SprykerRequestBuilder`)

`addFilter`/`addSort` exist only in the logging variant
(`requestWithLogging.ts`); the pagination and build logic is identical in
both files, so one embedding covers both. -/

/-- `baseUrl.replace(/\/$/, '')`: strip a single trailing slash. -/
def stripTrailingSlash (s : String) : String :=
  match s.data.getLast? with
  | some c => if c = '/' then String.mk s.data.dropLast else s
  | none => s

structure SprykerRequestBuilder where
  baseUrl : String
  endpoint : Option String
  queryParams : List (String × String)

/-- The `SprykerRequestBuilder` constructor. -/
def SprykerRequestBuilder.create (baseUrl : String) : SprykerRequestBuilder :=
  ⟨stripTrailingSlash baseUrl, none, []⟩

def SprykerRequestBuilder.setEndpoint (b : SprykerRequestBuilder) (e : String) :
    SprykerRequestBuilder :=
  { b with endpoint := some e }

/-- `addQueryParam` skips `undefined`/`null`/`''`; every call site passes a
string produced by `encodeURIComponent`, so only the `''` test is live. -/
def SprykerRequestBuilder.addQueryParam (b : SprykerRequestBuilder) (key value : String) :
    SprykerRequestBuilder :=
  if value ≠ "" then { b with queryParams := upsert b.queryParams key value } else b

def SprykerRequestBuilder.addInclude (b : SprykerRequestBuilder) (include? : Option String) :
    SprykerRequestBuilder :=
  match include? with
  | some s => if s ≠ "" then b.addQueryParam "include" (encodeURIComponent s) else b
  | none => b

/-- `addPagination(pageSize?, pageNumber?)`: `page[limit]` from a truthy
`pageSize`, `page[offset] = (pageNumber - 1) * (pageSize || 20)` only when
`pageNumber` is truthy and `> 1`. -/
def SprykerRequestBuilder.addPagination (b : SprykerRequestBuilder)
    (pageSize pageNumber : Option Int) : SprykerRequestBuilder :=
  let b1 := match pageSize with
    | some n => if n ≠ 0 then b.addQueryParam "page[limit]" (encodeURIComponent (jsIntToString n)) else b
    | none => b
  match pageNumber with
  | some m =>
    if m ≠ 0 ∧ m > 1 then
      let offset := (m - 1) * (match pageSize with
        | some n => if n ≠ 0 then n else 20
        | none => 20)
      b1.addQueryParam "page[offset]" (encodeURIComponent (jsIntToString offset))
    else b1
  | none => b1

/-- `build()`: base URL + `/` + endpoint + `?`-joined query parameters in
insertion order.  (An unset endpoint interpolates as the string
`"undefined"` in JS; the services always set it.) -/
def SprykerRequestBuilder.build (b : SprykerRequestBuilder) : String :=
  let url := b.baseUrl ++ "/" ++ (match b.endpoint with | some e => e | none => "undefined")
  let queryString := String.intercalate "&" (b.queryParams.map (fun kv => kv.1 ++ "=" ++ kv.2))
  if queryString ≠ "" then url ++ "?" ++ queryString else url

/-! ## Auth service (`src/nodes/services/authService.ts`)

`SprykerAuthService` keeps a process-wide `Map` from `baseUrl:username` to
cached tokens.  Every call of the n8n `request` helper is modelled by
consuming the head of a script of `TokenEndpointResult`s. -/

/-- `String.prototype.includes` on lists of characters. -/
def startsWithChars : List Char → List Char → Bool
  | _, [] => true
  | [], _ :: _ => false
  | c :: cs, p :: ps => c = p && startsWithChars cs ps

/-- `s.includes(pat)` for the strings involved in error classification. -/
def includesChars : List Char → List Char → Bool
  | [], pat => startsWithChars [] pat
  | c :: cs, pat => startsWithChars (c :: cs) pat || includesChars cs pat

structure SprykerCredentials where
  baseUrl : String
  username : String
  password : String
deriving DecidableEq

/-- A `SprykerTokenCache` entry: `{accessToken, refreshToken, expiresAt}`. -/
structure SprykerTokenCache where
  accessToken : String
  refreshToken : String
  expiresAt : Int
deriving DecidableEq

/-- The static `tokenCache : Map<string, SprykerTokenCache>`. -/
abbrev TokenCacheMap := List (String × SprykerTokenCache)

def TOKEN_SAFETY_MARGIN : Int := 60000

def MAX_RETRY_ATTEMPTS : Nat := 3

/-- `data.attributes` of a token-endpoint response.  A 200 response whose
body misses `accessToken`/`refreshToken` is represented by empty strings
(both are rejected by the same truthiness test the source uses). -/
structure SprykerTokenAttributes where
  accessToken : String
  refreshToken : String
  expiresIn : Int
deriving DecidableEq

/-- What one call of the transport against a token endpoint produced:
either a parsed body, or a failure carrying `statusCode`/`code`/`message`. -/
inductive TokenEndpointResult where
  | ok : SprykerTokenAttributes → TokenEndpointResult
  | err : Option Nat → Option String → String → TokenEndpointResult
deriving DecidableEq

/-- `getCacheKey`: `baseUrl + ":" + username`. -/
def getCacheKey (c : SprykerCredentials) : String := c.baseUrl ++ ":" ++ c.username

/-- `isValidTokenResponse`: truthy `accessToken` and `refreshToken` (the
`typeof expiresIn === 'number'` conjunct always holds in the model). -/
def isValidTokenResponse (r : SprykerTokenAttributes) : Bool :=
  r.accessToken != "" && r.refreshToken != ""

/-- `isTokenValid`: `Date.now() < expiresAt`. -/
def isTokenValid (now : Int) (t : SprykerTokenCache) : Bool := now < t.expiresAt

/-- `shouldTryRefresh`: less than 5 minutes until expiry. -/
def shouldTryRefresh (now : Int) (t : SprykerTokenCache) : Bool :=
  t.expiresAt - now < 5 * 60 * 1000

/-- Scanner for `urlParses`: `before` holds the characters read so far. -/
def urlParsesAux : List Char → List Char → Bool
  | [], _ => false
  | c :: cs, before =>
    if startsWithChars (c :: cs) "://".data then before ≠ [] && cs.drop 2 ≠ []
    else urlParsesAux cs (c :: before)

/-- Modelled from the spec: the host's `new URL(baseUrl)` validity check
(external to this repository) — accepted when the string contains `://`
with a nonempty scheme before its first occurrence and a nonempty remainder
after it.  No claim depends on its internals. -/
def urlParses (s : String) : Bool := urlParsesAux s.data []

/-- `getValidatedCredentials` (the part after the host returned a credential
object): missing-field collection, then URL validation.  Returns the thrown
error message, or `none` when validation passes. -/
def validateCredentials (c : SprykerCredentials) : Option String :=
  let missingFields :=
    (if c.username = "" then ["username"] else []) ++
    (if c.password = "" then ["password"] else []) ++
    (if c.baseUrl = "" then ["baseUrl"] else [])
  if missingFields ≠ [] then
    some ("Missing required credential fields: " ++ String.intercalate ", " missingFields)
  else if !(urlParses c.baseUrl) then
    some "Invalid baseUrl format. Please provide a valid URL (e.g., https://glue.eu.spryker.local)"
  else none

/-- The error-message classification in `getNewAccessToken`'s catch block. -/
def classifyTokenError (sc : Option Nat) (code : Option String) (msg : String) : String :=
  if sc = some 401 then "Invalid username or password"
  else if sc = some 404 then "Spryker API endpoint not found. Please check your baseUrl"
  else if sc = some 307 ∨ sc = some 308 then
    "Server is redirecting the request. If using HTTPS, try HTTP instead (or vice versa)"
  else if code = some "ECONNREFUSED" then
    "Cannot connect to Spryker API. Please check your baseUrl and network connection"
  else if code = some "ETIMEDOUT" then "Request timeout. Spryker API is not responding"
  else if includesChars msg.data "Unexpected token".data then
    "Received HTML instead of JSON. This usually indicates a redirect or proxy issue. Check your baseUrl protocol (HTTP vs HTTPS)"
  else "Failed to get access token: " ++ msg

/-- `getNewAccessToken`: one POST to `{baseUrl}/access-tokens`; on a valid
response body, cache `{accessToken, refreshToken, expiresAt = Date.now() +
expiresIn*1000 - TOKEN_SAFETY_MARGIN}` under the credential key and return
the access token; an invalid body is thrown inside the `try` and classified
like any other error. -/
def getNewAccessToken (creds : SprykerCredentials) (now : Int) (cache : TokenCacheMap)
    (net : TokenEndpointResult) : Except String String × TokenCacheMap :=
  match net with
  | .ok resp =>
    if isValidTokenResponse resp then
      let expiresAt := now + resp.expiresIn * 1000 - TOKEN_SAFETY_MARGIN
      (Except.ok resp.accessToken,
       upsert cache (getCacheKey creds) ⟨resp.accessToken, resp.refreshToken, expiresAt⟩)
    else
      (Except.error (classifyTokenError none none "Invalid token response format from Spryker API"),
       cache)
  | .err sc code msg => (Except.error (classifyTokenError sc code msg), cache)

/-- `refreshAccessToken`: one POST to `{baseUrl}/refresh-tokens`; on success
the cache entry is replaced the same way as in `getNewAccessToken`; on any
failure (including an invalid response body thrown inside the `try`) the
catch block deletes the cached entry and rethrows. -/
def refreshAccessToken (creds : SprykerCredentials) (now : Int) (cache : TokenCacheMap)
    (net : TokenEndpointResult) : Except String String × TokenCacheMap :=
  match net with
  | .ok resp =>
    if isValidTokenResponse resp then
      let expiresAt := now + resp.expiresIn * 1000 - TOKEN_SAFETY_MARGIN
      (Except.ok resp.accessToken,
       upsert cache (getCacheKey creds) ⟨resp.accessToken, resp.refreshToken, expiresAt⟩)
    else
      (Except.error
        "Failed to refresh access token: Invalid refresh token response format from Spryker API",
       deleteKey cache (getCacheKey creds))
  | .err sc _ msg =>
    (Except.error
      (if sc = some 401 then "Refresh token is invalid or expired"
       else "Failed to refresh access token: " ++ msg),
     deleteKey cache (getCacheKey creds))

/-- An outgoing token-endpoint POST recorded by the model. -/
inductive AuthHttpCall where
  | tokenRequest : String → String → AuthHttpCall
  | refreshRequest : String → String → AuthHttpCall
deriving DecidableEq

/-- Whether a recorded call is a full authentication
(`POST .../access-tokens`). -/
def AuthHttpCall.isTokenRequest : AuthHttpCall → Bool
  | .tokenRequest _ _ => true
  | .refreshRequest _ _ => false

/-- Outcome of one iteration of `getValidAccessToken`'s `try` block. -/
structure AttemptResult where
  outcome : Except String String
  cache : TokenCacheMap
  calls : List AuthHttpCall
  script : List TokenEndpointResult

/-- Consume the next scripted transport response; an exhausted script is a
modelling artifact reported as a network failure. -/
def takeNet : List TokenEndpointResult → TokenEndpointResult × List TokenEndpointResult
  | [] => (.err none none "no scripted network response", [])
  | r :: rest => (r, rest)

/-- One iteration of the retry loop in `getValidAccessToken` (the `try`
block, lines 35–55): cached-token fast path, refresh attempt with
delete-on-failure, then full authentication.  A refresh failure is caught
inside the iteration (warn, delete the cache entry) and falls through to
`getNewAccessToken`; only the latter's failure escapes to the retry
machinery. -/
def authAttemptBody (creds : SprykerCredentials) (now : Int) (cache : TokenCacheMap)
    (script : List TokenEndpointResult) : AttemptResult :=
  let key := getCacheKey creds
  let authUri := stripTrailingSlash creds.baseUrl ++ "/access-tokens"
  let refreshUri := stripTrailingSlash creds.baseUrl ++ "/refresh-tokens"
  match lookupKey cache key with
  | some cachedToken =>
    if isTokenValid now cachedToken then
      ⟨Except.ok cachedToken.accessToken, cache, [], script⟩
    else if cachedToken.refreshToken != "" && shouldTryRefresh now cachedToken then
      let (net, script1) := takeNet script
      let refreshCall := AuthHttpCall.refreshRequest refreshUri cachedToken.refreshToken
      match refreshAccessToken creds now cache net with
      | (Except.ok tok, cache1) => ⟨Except.ok tok, cache1, [refreshCall], script1⟩
      | (Except.error _, cache1) =>
        let cache2 := deleteKey cache1 key
        let (net2, script2) := takeNet script1
        let (out, cache3) := getNewAccessToken creds now cache2 net2
        ⟨out, cache3, [refreshCall, AuthHttpCall.tokenRequest authUri creds.username], script2⟩
    else
      let (net, script1) := takeNet script
      let (out, cache1) := getNewAccessToken creds now cache net
      ⟨out, cache1, [AuthHttpCall.tokenRequest authUri creds.username], script1⟩
  | none =>
    let (net, script1) := takeNet script
    let (out, cache1) := getNewAccessToken creds now cache net
    ⟨out, cache1, [AuthHttpCall.tokenRequest authUri creds.username], script1⟩

/-- Result of a whole `getValidAccessToken` call: outcome, final cache, the
token-endpoint calls made, the backoff delays awaited (ms) and the number of
loop iterations executed. -/
structure AuthResult where
  outcome : Except String String
  cache : TokenCacheMap
  calls : List AuthHttpCall
  delaysMs : List Nat
  attempts : Nat

/-- The `for (let attempt = 1; attempt <= MAX_RETRY_ATTEMPTS; attempt++)`
loop: on a failed final attempt, wrap the failure with the attempt count;
on a failed non-final attempt, await `2^(attempt-1)` seconds and continue.
`remaining` is structural fuel; the loop is entered with
`remaining = MAX_RETRY_ATTEMPTS` and `attempt = 1`, so the `0` case is the
unreachable post-loop throw. -/
def authRetryLoop (creds : SprykerCredentials) (now : Int) :
    Nat → Nat → TokenCacheMap → List TokenEndpointResult → AuthResult
  | 0, _, cache, _ =>
    ⟨Except.error "Authentication failed: Maximum retry attempts exceeded", cache, [], [], 0⟩
  | remaining + 1, attempt, cache, script =>
    let step := authAttemptBody creds now cache script
    match step.outcome with
    | Except.ok tok => ⟨Except.ok tok, step.cache, step.calls, [], 1⟩
    | Except.error msg =>
      if attempt = MAX_RETRY_ATTEMPTS then
        ⟨Except.error ("Authentication failed after " ++ natToString MAX_RETRY_ATTEMPTS ++
            " attempts: " ++ msg),
         step.cache, step.calls, [], 1⟩
      else
        let rest := authRetryLoop creds now remaining (attempt + 1) step.cache step.script
        ⟨rest.outcome, rest.cache, step.calls ++ rest.calls,
         2 ^ (attempt - 1) * 1000 :: rest.delaysMs, rest.attempts + 1⟩

/-- `getValidAccessToken`: validate credentials, then run the retry loop. -/
def getValidAccessToken (creds : SprykerCredentials) (now : Int) (cache : TokenCacheMap)
    (script : List TokenEndpointResult) : AuthResult :=
  match validateCredentials creds with
  | some msg => ⟨Except.error msg, cache, [], [], 0⟩
  | none => authRetryLoop creds now MAX_RETRY_ATTEMPTS 1 cache script

/-- `getCacheStats`: total size plus a valid/expired census at `now`. -/
structure CacheStats where
  totalCachedTokens : Nat
  validTokens : Nat
  expiredTokens : Nat
deriving DecidableEq

def getCacheStats (now : Int) (cache : TokenCacheMap) : CacheStats :=
  { totalCachedTokens := cache.length
    validTokens := cache.countP (fun kv => decide (now < kv.2.expiresAt))
    expiredTokens := cache.countP (fun kv => !decide (now < kv.2.expiresAt)) }

/-- `cleanupExpiredTokens`: delete every entry with `now >= expiresAt`,
returning the surviving cache and the number of removed entries. -/
def cleanupExpiredTokens (now : Int) : TokenCacheMap → TokenCacheMap × Nat
  | [] => ([], 0)
  | (k, t) :: rest =>
    let (c, n) := cleanupExpiredTokens now rest
    if now ≥ t.expiresAt then (c, n + 1) else ((k, t) :: c, n)

/-! ## Request executor (`src/nodes/utils/request.ts`, `executeSprykerRequest`)

A resource call's transport is a script of `HttpCallResult`s, one consumed
per `context.helpers.request` invocation. -/

/-- One transport outcome for a resource request. -/
inductive HttpCallResult where
  | ok : Value → HttpCallResult
  | err : Option Nat → Option String → String → HttpCallResult

/-- The non-401 error classification at the end of `executeSprykerRequest`. -/
def classifyRequestError (sc : Option Nat) (code : Option String) (msg : String) : String :=
  if sc = some 403 then
    "Access forbidden. Check if your user has the required permissions for this operation."
  else if sc = some 404 then
    "Resource not found. Please check the endpoint URL and resource ID."
  else if sc = some 422 then "Validation error: " ++ msg ++ ". Please check your request data."
  else if code = some "ECONNREFUSED" then
    "Cannot connect to Spryker API. Please check your baseUrl and network connection."
  else if code = some "ETIMEDOUT" then "Request timeout. Spryker API is not responding."
  else "Spryker API request failed: " ++ msg

/-- Result of `executeSprykerRequest`: outcome, final token cache, the final
`Authorization` header on the (mutated) options, how many transport calls
were made, and the token-endpoint calls issued while re-authenticating. -/
structure RequestExecResult where
  outcome : Except String Value
  cache : TokenCacheMap
  authHeader : Option String
  transportCalls : Nat
  authCalls : List AuthHttpCall

/-- `executeSprykerRequest`: perform the request; on a 401 failure, call
`SprykerAuthService.clearTokenCache()` (which empties the WHOLE static
cache), obtain a fresh token with `getValidAccessToken`, overwrite the
`Authorization` header and retry the transport exactly once, wrapping any
failure of re-authentication or of the retried call in
`"Spryker API authentication failed after retry: ..."`; other failures are
classified by `classifyRequestError`.  `creds` are the credentials the
re-authentication resolves from the execution context. -/
def executeSprykerRequest (creds : SprykerCredentials) (now : Int)
    (authHeader : Option String) (cache : TokenCacheMap)
    (transport : List HttpCallResult) (authScript : List TokenEndpointResult) :
    RequestExecResult :=
  match transport with
  | [] =>
    ⟨Except.error "Spryker API request failed: no scripted transport response",
     cache, authHeader, 0, []⟩
  | t :: rest =>
    match t with
    | .ok body => ⟨Except.ok body, cache, authHeader, 1, []⟩
    | .err sc code msg =>
      if sc = some 401 then
        let ar := getValidAccessToken creds now [] authScript
        match ar.outcome with
        | Except.ok tok =>
          let newHeader := some ("Bearer " ++ tok)
          match rest with
          | [] =>
            ⟨Except.error
                "Spryker API authentication failed after retry: no scripted transport response",
             ar.cache, newHeader, 1, ar.calls⟩
          | t2 :: _ =>
            match t2 with
            | .ok body => ⟨Except.ok body, ar.cache, newHeader, 2, ar.calls⟩
            | .err _ _ msg2 =>
              ⟨Except.error ("Spryker API authentication failed after retry: " ++ msg2),
               ar.cache, newHeader, 2, ar.calls⟩
        | Except.error amsg =>
          ⟨Except.error ("Spryker API authentication failed after retry: " ++ amsg),
           ar.cache, authHeader, 1, ar.calls⟩
      else ⟨Except.error (classifyRequestError sc code msg), cache, authHeader, 1, []⟩

/-! ## Resource transforms
(`src/nodes/services/cmsPageService.ts`, `abstractProductService.ts`) -/

/-- `String.prototype.split(',')` on characters; `acc` is the current piece
reversed. -/
def splitOnComma : List Char → List Char → List (List Char)
  | [], acc => [acc.reverse]
  | c :: cs, acc =>
    if c = ',' then acc.reverse :: splitOnComma cs [] else splitOnComma cs (c :: acc)

def isWhitespaceChar (c : Char) : Bool :=
  c = ' ' || c = Char.ofNat 9 || c = Char.ofNat 10 || c = Char.ofNat 13

/-- `String.prototype.trim`. -/
def trimChars (l : List Char) : List Char :=
  ((l.dropWhile isWhitespaceChar).reverse.dropWhile isWhitespaceChar).reverse

/-- `fieldsToExtract.split(',').map(f => f.trim())`. -/
def parseFieldList (s : String) : List String :=
  (splitOnComma s.data []).map (fun cs => String.mk (trimChars cs))

/-- The extraction loop shared by both transforms:
`for (const field of fields) if (rec.hasOwnProperty(field))
extracted[field] = rec[field]`. -/
def extractLoop (record : List (String × Value)) :
    List String → List (String × Value) → List (String × Value)
  | [], acc => acc
  | f :: fs, acc =>
    match lookupKey record f with
    | some v => extractLoop record fs (upsert acc f v)
    | none => extractLoop record fs acc

def extractFields (record : List (String × Value)) (fte : String) : List (String × Value) :=
  extractLoop record (parseFieldList fte) []

/-- `transformSingleCmsPage`: flatten `{id, type, ...attributes, links,
_raw}`, then reduce to `fieldsToExtract` when that parameter is truthy. -/
def transformSingleCmsPage (cmsPage : Value) (fieldsToExtract : Option String) : Value :=
  let base := [("id", getProp cmsPage "id"), ("type", getProp cmsPage "type")]
  let withAttrs := spreadFields base (getProp cmsPage "attributes")
  let transformedPage := upsert (upsert withAttrs "links" (getProp cmsPage "links")) "_raw" cmsPage
  match fieldsToExtract with
  | some fte => if fte ≠ "" then .obj (extractFields transformedPage fte) else .obj transformedPage
  | none => .obj transformedPage

/-- Is a value JS `undefined`? -/
def isUndefined : Value → Bool
  | .undefined => true
  | _ => false

/-- `transformAbstractProductResponse`: fixed field list via optional
chaining into `attributes`, removal of `undefined` values, then the same
field extraction. -/
def transformAbstractProductResponse (data : Value) (fieldsToExtract : Option String) : Value :=
  let attrs := getProp data "attributes"
  let transformedProduct : List (String × Value) :=
    [("id", getProp data "id"), ("type", getProp data "type"),
     ("sku", getProp attrs "sku"), ("name", getProp attrs "name"),
     ("description", getProp attrs "description"),
     ("averageRating", getProp attrs "averageRating"),
     ("reviewCount", getProp attrs "reviewCount"),
     ("attributes", getProp attrs "attributes"),
     ("superAttributes", getProp attrs "superAttributes"),
     ("superAttributesDefinition", getProp attrs "superAttributesDefinition"),
     ("attributeMap", getProp attrs "attributeMap"),
     ("metaTitle", getProp attrs "metaTitle"),
     ("metaKeywords", getProp attrs "metaKeywords"),
     ("metaDescription", getProp attrs "metaDescription"),
     ("attributeNames", getProp attrs "attributeNames"),
     ("url", getProp attrs "url"),
     ("links", getProp data "links"), ("_raw", data)]
  let transformedProduct := transformedProduct.filter (fun kv => !(isUndefined kv.2))
  match fieldsToExtract with
  | some fte =>
    if fte ≠ "" then .obj (extractFields transformedProduct fte) else .obj transformedProduct
  | none => .obj transformedProduct

/-- `transformCmsPageResponse`: map arrays element-wise, wrap single
objects. -/
def transformCmsPageResponse (data : Value) (fieldsToExtract : Option String) : List Value :=
  match data with
  | .arr items => items.map (fun it => transformSingleCmsPage it fieldsToExtract)
  | _ => [transformSingleCmsPage data fieldsToExtract]

/-- `{...response}`: a shallow copy.  JS objects have unique keys, so the
copy of an object has the same own properties; spreading a primitive yields
an empty object. -/
def shallowCopy (v : Value) : Value :=
  match v with
  | .obj fields => .obj fields
  | _ => .obj []

/-- The response handling of `CmsPageService.getMany` (after the request):
raw-response pass-through, transform when `response && response.data` is
truthy, otherwise the raw-response fallback `[{json: {...response}}]`. -/
def cmsPagesGetManyOutput (response : Value) (fieldsToExtract : Option String)
    (rawResponse : Bool) : List Value :=
  if rawResponse then [response]
  else if truthy response && truthy (getProp response "data") then
    transformCmsPageResponse (getProp response "data") fieldsToExtract
  else [shallowCopy response]

/-- The response handling of `CmsPageService.getById` (same structure as
`getMany`; the single-object `data` goes through the same transform). -/
def cmsPagesGetByIdOutput (response : Value) (fieldsToExtract : Option String)
    (rawResponse : Bool) : List Value :=
  if rawResponse then [response]
  else if truthy response && truthy (getProp response "data") then
    transformCmsPageResponse (getProp response "data") fieldsToExtract
  else [shallowCopy response]

/-- The response handling of `AbstractProductService.getById`. -/
def abstractProductGetByIdOutput (response : Value) (fieldsToExtract : Option String)
    (rawResponse : Bool) : List Value :=
  if rawResponse then [response]
  else if truthy response && truthy (getProp response "data") then
    [transformAbstractProductResponse (getProp response "data") fieldsToExtract]
  else [shallowCopy response]

/-! ## Node entry point (`src/nodes/Spryker.node.ts`, lines 61–82)

The per-item loop: each item's `resourceFactory.executeOperation` either
yields output records or throws; with `continueOnFail()` the failure becomes
an embedded `{error: message}` record and the loop continues, otherwise the
error propagates and the batch produces no output.  (The optional logging
summary record appended after the loop is outside the modelled lines.) -/

def executeBatch (continueOnFail : Bool) :
    List (Except String (List Value)) → Except String (List Value)
  | [] => Except.ok []
  | item :: rest =>
    match item with
    | Except.ok records =>
      match executeBatch continueOnFail rest with
      | Except.ok out => Except.ok (records ++ out)
      | Except.error e => Except.error e
    | Except.error msg =>
      if continueOnFail then
        match executeBatch continueOnFail rest with
        | Except.ok out => Except.ok (Value.obj [("error", Value.str msg)] :: out)
        | Except.error e => Except.error e
      else Except.error msg

/-! ## Theorems -/

theorem cleanupExpiredTokens_fst (now : Int) (cache : TokenCacheMap) :
    (cleanupExpiredTokens now cache).1
      = cache.filter (fun kv => decide (now < kv.2.expiresAt)) := by
  induction cache with
  | nil => rfl
  | cons hd tl ih =>
    obtain ⟨k, t⟩ := hd
    simp only [cleanupExpiredTokens]
    rcases hrec : cleanupExpiredTokens now tl with ⟨c, n⟩
    by_cases hx : now ≥ t.expiresAt
    · have : ¬ (now < t.expiresAt) := not_lt.mpr hx
      simp [hx, List.filter_cons, this, ← ih, hrec]
    · have : now < t.expiresAt := lt_of_not_ge hx
      simp [hx, List.filter_cons, this, ← ih, hrec]

theorem cleanupExpiredTokens_snd (now : Int) (cache : TokenCacheMap) :
    (cleanupExpiredTokens now cache).2
      = cache.countP (fun kv => !decide (now < kv.2.expiresAt)) := by
  induction cache with
  | nil => rfl
  | cons hd tl ih =>
    obtain ⟨k, t⟩ := hd
    simp only [cleanupExpiredTokens]
    rcases hrec : cleanupExpiredTokens now tl with ⟨c, n⟩
    by_cases hx : now ≥ t.expiresAt
    · have : ¬ (now < t.expiresAt) := not_lt.mpr hx
      simp [hx, List.countP_cons, this, ← ih, hrec]
    · have : now < t.expiresAt := lt_of_not_ge hx
      simp [hx, List.countP_cons, this, ← ih, hrec]

/-- C10: For every token cache and time: `getCacheStats` reports
`totalCachedTokens = validTokens + expiredTokens` with an entry counted
valid exactly when `now < expiresAt`; `cleanupExpiredTokens` deletes exactly
the entries with `now ≥ expiresAt`, returns the number deleted, and leaves
only valid entries, so `getCacheStats` at the same `now` afterwards reports
`expiredTokens = 0`. -/
theorem cacheStats_and_cleanup_correct (now : Int) (cache : TokenCacheMap) :
    (getCacheStats now cache).totalCachedTokens
        = (getCacheStats now cache).validTokens + (getCacheStats now cache).expiredTokens
    ∧ (cleanupExpiredTokens now cache).2 = (getCacheStats now cache).expiredTokens
    ∧ (∀ k t, (k, t) ∈ (cleanupExpiredTokens now cache).1
        ↔ (k, t) ∈ cache ∧ now < t.expiresAt)
    ∧ (getCacheStats now (cleanupExpiredTokens now cache).1).expiredTokens = 0 := by
  refine ⟨?_, ?_, ?_, ?_⟩
  · simp only [getCacheStats]
    rw [show (fun kv : String × SprykerTokenCache => !decide (now < kv.2.expiresAt))
          = (fun kv : String × SprykerTokenCache => decide (kv.2.expiresAt ≤ now)) by
        funext kv
        rw [← decide_not]
        simp [not_lt]]
    simpa using cache.length_eq_countP_add_countP (fun kv => decide (now < kv.2.expiresAt))
  · simp [cleanupExpiredTokens_snd, getCacheStats]
  · intro k t
    simp [cleanupExpiredTokens_fst, List.mem_filter]
  · simp only [getCacheStats, cleanupExpiredTokens_fst]
    rw [List.countP_eq_zero]
    intro kv hkv
    simp only [List.mem_filter] at hkv
    simp [hkv.2]

/-- C6: Two input items where item 1 fails and item 2 succeeds: with
continue-on-failure the output is the embedded `{error: message}` record for
item 1 followed by item 2's success records, in input order; without it the
batch aborts with item 1's error and no output is produced for item 2. -/
theorem executeBatch_continue_on_failure (msg : String) (recs : List Value) :
    executeBatch true [Except.error msg, Except.ok recs]
        = Except.ok (Value.obj [("error", Value.str msg)] :: recs)
    ∧ executeBatch false [Except.error msg, Except.ok recs] = Except.error msg := by
  constructor
  · simp [executeBatch]
  · simp [executeBatch]

@[simp] theorem truthy_obj (fields : List (String × Value)) :
    truthy (Value.obj fields) = true := rfl

/-- C9: a response carrying no truthy `data` payload (e.g. `{errors:[]}`)
makes each resource operation — list or single-item — return a single output
record equal to the raw response instead of failing. -/
theorem missing_data_returns_raw_response (fields : List (String × Value))
    (fieldsToExtract : Option String)
    (h : truthy (getProp (Value.obj fields) "data") = false) :
    cmsPagesGetManyOutput (Value.obj fields) fieldsToExtract false = [Value.obj fields]
    ∧ cmsPagesGetByIdOutput (Value.obj fields) fieldsToExtract false = [Value.obj fields]
    ∧ abstractProductGetByIdOutput (Value.obj fields) fieldsToExtract false
        = [Value.obj fields] := by
  refine ⟨?_, ?_, ?_⟩ <;>
    simp [cmsPagesGetManyOutput, cmsPagesGetByIdOutput, abstractProductGetByIdOutput,
      h, shallowCopy]

/-- Witness for C9 at the concrete response `{errors: []}`. -/
theorem missing_data_returns_raw_response_witness :
    truthy (getProp (Value.obj [("errors", Value.arr [])]) "data") = false
    ∧ cmsPagesGetManyOutput (Value.obj [("errors", Value.arr [])]) none false
        = [Value.obj [("errors", Value.arr [])]] :=
  ⟨rfl, (missing_data_returns_raw_response [("errors", Value.arr [])] none rfl).1⟩

/-- C5: every cache entry written by token acquisition or token refresh
has `expiresAt = issueTime + expiresIn*1000 - 60000` (the constant safety
margin), which is strictly before the server-side expiry
`issueTime + expiresIn*1000`. -/
theorem token_expiry_has_safety_margin (creds : SprykerCredentials) (now : Int)
    (cache : TokenCacheMap) (resp : SprykerTokenAttributes)
    (h : isValidTokenResponse resp = true) :
    lookupKey (getNewAccessToken creds now cache (.ok resp)).2 (getCacheKey creds)
        = some ⟨resp.accessToken, resp.refreshToken, now + resp.expiresIn * 1000 - 60000⟩
    ∧ lookupKey (refreshAccessToken creds now cache (.ok resp)).2 (getCacheKey creds)
        = some ⟨resp.accessToken, resp.refreshToken, now + resp.expiresIn * 1000 - 60000⟩
    ∧ now + resp.expiresIn * 1000 - 60000 < now + resp.expiresIn * 1000 := by
  refine ⟨?_, ?_, by omega⟩ <;>
    simp [getNewAccessToken, refreshAccessToken, h, TOKEN_SAFETY_MARGIN]

/-- Witness for C5 at a concrete acquisition response. -/
theorem token_expiry_has_safety_margin_witness :
    isValidTokenResponse ⟨"tokenA", "tokenR", 28800⟩ = true
    ∧ lookupKey
        (getNewAccessToken ⟨"https://glue.example.com", "user", "pw"⟩ 1000 []
          (.ok ⟨"tokenA", "tokenR", 28800⟩)).2
        (getCacheKey ⟨"https://glue.example.com", "user", "pw"⟩)
        = some ⟨"tokenA", "tokenR", 1000 + 28800 * 1000 - 60000⟩ :=
  ⟨rfl,
   (token_expiry_has_safety_margin ⟨"https://glue.example.com", "user", "pw"⟩ 1000 []
     ⟨"tokenA", "tokenR", 28800⟩ rfl).1⟩

theorem encode_jsIntToString_ne_empty (n : Int) :
    encodeURIComponent (jsIntToString n) ≠ "" :=
  encodeURIComponent_ne_empty _ (jsIntToString_ne_empty n)

theorem queryParams_addQueryParam (b : SprykerRequestBuilder) (key v : String) :
    (b.addQueryParam key v).queryParams
      = if v ≠ "" then upsert b.queryParams key v else b.queryParams := by
  simp only [SprykerRequestBuilder.addQueryParam]
  split <;> rfl

/-- C7: pagination: `page[limit]` is set from a truthy `pageSize`, and
`page[offset] = (pageNumber - 1) * (pageSize or 20)` is set only when
`pageNumber > 1`, the offset parameter being omitted entirely when
`pageNumber ≤ 1` or absent; concretely, `pageSize=10, pageNumber=2` builds
`...?page[limit]=10&page[offset]=10` and `pageNumber=1` builds no offset
parameter. -/
theorem pagination_params_correct (url ep : String) (ps pn : Option Int) :
    (lookupKey
        ((((SprykerRequestBuilder.create url).setEndpoint ep).addPagination ps pn).queryParams)
        "page[limit]"
      = (match ps with
         | some n => if n ≠ 0 then some (encodeURIComponent (jsIntToString n)) else none
         | none => none))
    ∧ (lookupKey
        ((((SprykerRequestBuilder.create url).setEndpoint ep).addPagination ps pn).queryParams)
        "page[offset]"
      = (match pn with
         | some m =>
           if 1 < m then
             some (encodeURIComponent (jsIntToString ((m - 1) *
               (match ps with | some n => if n ≠ 0 then n else 20 | none => 20))))
           else none
         | none => none))
    ∧ (((SprykerRequestBuilder.create "https://glue.example.com").setEndpoint
          "cms-pages").addPagination (some 10) (some 2)).build
        = "https://glue.example.com/cms-pages?page[limit]=10&page[offset]=10"
    ∧ (((SprykerRequestBuilder.create "https://glue.example.com").setEndpoint
          "cms-pages").addPagination (some 10) (some 1)).build
        = "https://glue.example.com/cms-pages?page[limit]=10" := by
  refine ⟨?_, ?_, by rfl, by rfl⟩ <;>
  · simp only [SprykerRequestBuilder.addPagination, SprykerRequestBuilder.create,
      SprykerRequestBuilder.setEndpoint]
    rcases ps with _ | n <;> rcases pn with _ | m <;> dsimp only
    · simp
    · by_cases hm : 1 < m
      · have hc : m ≠ 0 ∧ m > 1 := ⟨by omega, hm⟩
        simp [hc, hm, queryParams_addQueryParam, encode_jsIntToString_ne_empty,
          upsert, lookupKey]
      · have hc : ¬ (m ≠ 0 ∧ m > 1) := fun hx => hm hx.2
        simp [hc, hm]
    · by_cases hn : n ≠ 0 <;>
        simp [hn, queryParams_addQueryParam, encode_jsIntToString_ne_empty, upsert, lookupKey]
    · by_cases hn : n ≠ 0 <;> by_cases hm : 1 < m
      · have hc : m ≠ 0 ∧ m > 1 := ⟨by omega, hm⟩
        simp [hn, hc, hm, queryParams_addQueryParam, encode_jsIntToString_ne_empty,
          upsert, lookupKey]
      · have hc : ¬ (m ≠ 0 ∧ m > 1) := fun hx => hm hx.2
        simp [hn, hc, hm, queryParams_addQueryParam, encode_jsIntToString_ne_empty,
          upsert, lookupKey]
      · have hc : m ≠ 0 ∧ m > 1 := ⟨by omega, hm⟩
        simp [hn, hc, hm, queryParams_addQueryParam, encode_jsIntToString_ne_empty,
          upsert, lookupKey]
      · have hc : ¬ (m ≠ 0 ∧ m > 1) := fun hx => hm hx.2
        simp [hn, hc, hm, queryParams_addQueryParam, encode_jsIntToString_ne_empty,
          upsert, lookupKey]

theorem lookupKey_extractLoop (record : List (String × Value)) (fs : List String)
    (acc : List (String × Value)) (k : String) :
    lookupKey (extractLoop record fs acc) k
      = if k ∈ fs ∧ (lookupKey record k).isSome then lookupKey record k
        else lookupKey acc k := by
  induction fs generalizing acc with
  | nil => simp [extractLoop]
  | cons f fs ih =>
    simp only [extractLoop]
    cases hf : lookupKey record f with
    | some v =>
      rw [ih]
      by_cases hk : k = f
      · subst hk
        by_cases hmem : k ∈ fs
        · simp [hmem, hf]
        · simp [hmem, hf, lookupKey_upsert_self]
      · rw [lookupKey_upsert_ne acc f k v hk]
        by_cases hmem : k ∈ fs
        · simp [hmem, hk]
        · simp [hmem, hk]
    | none =>
      rw [ih]
      by_cases hk : k = f
      · subst hk
        simp [hf]
      · by_cases hmem : k ∈ fs
        · simp [hmem, hk]
        · simp [hmem, hk]

/-- C8: for every transformed record and non-empty `fieldsToExtract`,
the extracted record holds exactly the requested keys that are present on
the record (requested-but-absent keys are silently dropped, and `links` and
`_raw` are kept only when requested); concretely, a transformed CMS page
`{id:"1", name:"Page 1", url:"/page-1", links:..., _raw:...}` with
`fieldsToExtract = "name,url"` reduces to exactly
`{name:"Page 1", url:"/page-1"}`. -/
theorem field_extraction_correct (record : List (String × Value)) (fte : String) (k : String)
    (h : fte ≠ "") :
    (lookupKey (extractFields record fte) k
       = if k ∈ parseFieldList fte ∧ (lookupKey record k).isSome then lookupKey record k
         else none)
    ∧ transformSingleCmsPage
        (Value.obj [("id", Value.str "1"), ("type", Value.str "cms-pages"),
          ("attributes", Value.obj [("name", Value.str "Page 1"),
            ("url", Value.str "/page-1")]),
          ("links", Value.obj [("self", Value.str "https://glue.example.com/cms-pages/1")])])
        (some "name,url")
       = Value.obj [("name", Value.str "Page 1"), ("url", Value.str "/page-1")] := by
  constructor
  · simpa [extractFields] using lookupKey_extractLoop record (parseFieldList fte) [] k
  · rfl

theorem getValidAccessToken_eq_loop (creds : SprykerCredentials) (now : Int)
    (cache : TokenCacheMap) (script : List TokenEndpointResult)
    (hv : validateCredentials creds = none) :
    getValidAccessToken creds now cache script
      = authRetryLoop creds now MAX_RETRY_ATTEMPTS 1 cache script := by
  simp [getValidAccessToken, hv]

theorem authAttemptBody_of_no_entry (creds : SprykerCredentials) (now : Int)
    (cache : TokenCacheMap) (script : List TokenEndpointResult)
    (h : lookupKey cache (getCacheKey creds) = none) :
    authAttemptBody creds now cache script =
      ⟨(getNewAccessToken creds now cache (takeNet script).1).1,
       (getNewAccessToken creds now cache (takeNet script).1).2,
       [AuthHttpCall.tokenRequest (stripTrailingSlash creds.baseUrl ++ "/access-tokens")
          creds.username],
       (takeNet script).2⟩ := by
  simp only [authAttemptBody, h]

theorem authAttemptBody_of_valid_entry (creds : SprykerCredentials) (now : Int)
    (cache : TokenCacheMap) (script : List TokenEndpointResult) (entry : SprykerTokenCache)
    (hc : lookupKey cache (getCacheKey creds) = some entry)
    (hv : isTokenValid now entry = true) :
    authAttemptBody creds now cache script
      = ⟨Except.ok entry.accessToken, cache, [], script⟩ := by
  simp only [authAttemptBody, hc, hv, if_true]

theorem authAttemptBody_of_refresh_ok (creds : SprykerCredentials) (now : Int)
    (cache : TokenCacheMap) (script : List TokenEndpointResult) (entry : SprykerTokenCache)
    (tok : String) (cache1 : TokenCacheMap)
    (hc : lookupKey cache (getCacheKey creds) = some entry)
    (hv : isTokenValid now entry = false)
    (hb : (entry.refreshToken != "" && shouldTryRefresh now entry) = true)
    (hr : refreshAccessToken creds now cache (takeNet script).1 = (Except.ok tok, cache1)) :
    authAttemptBody creds now cache script =
      ⟨Except.ok tok, cache1,
       [AuthHttpCall.refreshRequest (stripTrailingSlash creds.baseUrl ++ "/refresh-tokens")
          entry.refreshToken],
       (takeNet script).2⟩ := by
  simp only [authAttemptBody, hc, hv, hb, hr, Bool.false_eq_true, if_false]
  simp

theorem authAttemptBody_of_refresh_err (creds : SprykerCredentials) (now : Int)
    (cache : TokenCacheMap) (script : List TokenEndpointResult) (entry : SprykerTokenCache)
    (e : String) (cache1 : TokenCacheMap)
    (hc : lookupKey cache (getCacheKey creds) = some entry)
    (hv : isTokenValid now entry = false)
    (hb : (entry.refreshToken != "" && shouldTryRefresh now entry) = true)
    (hr : refreshAccessToken creds now cache (takeNet script).1 = (Except.error e, cache1)) :
    authAttemptBody creds now cache script =
      ⟨(getNewAccessToken creds now (deleteKey cache1 (getCacheKey creds))
          (takeNet (takeNet script).2).1).1,
       (getNewAccessToken creds now (deleteKey cache1 (getCacheKey creds))
          (takeNet (takeNet script).2).1).2,
       [AuthHttpCall.refreshRequest (stripTrailingSlash creds.baseUrl ++ "/refresh-tokens")
          entry.refreshToken,
        AuthHttpCall.tokenRequest (stripTrailingSlash creds.baseUrl ++ "/access-tokens")
          creds.username],
       (takeNet (takeNet script).2).2⟩ := by
  simp only [authAttemptBody, hc, hv, hb, hr, Bool.false_eq_true, if_false]
  simp

theorem authRetryLoop_of_ok (creds : SprykerCredentials) (now : Int) (rem attempt : Nat)
    (cache : TokenCacheMap) (script : List TokenEndpointResult) (tok : String)
    (h : (authAttemptBody creds now cache script).outcome = Except.ok tok) :
    authRetryLoop creds now (rem + 1) attempt cache script
      = ⟨Except.ok tok, (authAttemptBody creds now cache script).cache,
         (authAttemptBody creds now cache script).calls, [], 1⟩ := by
  simp only [authRetryLoop, h]

theorem authRetryLoop_of_error_last (creds : SprykerCredentials) (now : Int) (rem : Nat)
    (cache : TokenCacheMap) (script : List TokenEndpointResult) (msg : String)
    (h : (authAttemptBody creds now cache script).outcome = Except.error msg) :
    authRetryLoop creds now (rem + 1) MAX_RETRY_ATTEMPTS cache script
      = ⟨Except.error ("Authentication failed after " ++ natToString MAX_RETRY_ATTEMPTS ++
            " attempts: " ++ msg),
         (authAttemptBody creds now cache script).cache,
         (authAttemptBody creds now cache script).calls, [], 1⟩ := by
  simp only [authRetryLoop, h, if_pos rfl]
  simp

theorem authRetryLoop_of_error_cont (creds : SprykerCredentials) (now : Int) (rem attempt : Nat)
    (cache : TokenCacheMap) (script : List TokenEndpointResult) (msg : String)
    (h : (authAttemptBody creds now cache script).outcome = Except.error msg)
    (hat : attempt ≠ MAX_RETRY_ATTEMPTS) :
    authRetryLoop creds now (rem + 1) attempt cache script
      = ⟨(authRetryLoop creds now rem (attempt + 1) (authAttemptBody creds now cache script).cache
            (authAttemptBody creds now cache script).script).outcome,
         (authRetryLoop creds now rem (attempt + 1) (authAttemptBody creds now cache script).cache
            (authAttemptBody creds now cache script).script).cache,
         (authAttemptBody creds now cache script).calls ++
           (authRetryLoop creds now rem (attempt + 1)
              (authAttemptBody creds now cache script).cache
              (authAttemptBody creds now cache script).script).calls,
         2 ^ (attempt - 1) * 1000 ::
           (authRetryLoop creds now rem (attempt + 1)
              (authAttemptBody creds now cache script).cache
              (authAttemptBody creds now cache script).script).delaysMs,
         (authRetryLoop creds now rem (attempt + 1)
            (authAttemptBody creds now cache script).cache
            (authAttemptBody creds now cache script).script).attempts + 1⟩ := by
  simp only [authRetryLoop, h, if_neg hat]

/-- C1: for a valid credential set with nothing cached under its key,
the first `getValidAccessToken` call performs exactly one network request —
the token-issuance POST — and caches the token; and any subsequent call
while the cached entry satisfies `now < expiresAt` performs zero network
requests, returns the cached access token unchanged, and leaves the cache
untouched. -/
theorem first_call_one_request_then_cache_hit (creds : SprykerCredentials) (now : Int)
    (cache : TokenCacheMap) (resp : SprykerTokenAttributes) (rest : List TokenEndpointResult)
    (hv : validateCredentials creds = none)
    (hfirst : lookupKey cache (getCacheKey creds) = none)
    (hresp : isValidTokenResponse resp = true) :
    (getValidAccessToken creds now cache (.ok resp :: rest)).calls
        = [AuthHttpCall.tokenRequest
            (stripTrailingSlash creds.baseUrl ++ "/access-tokens") creds.username]
    ∧ (getValidAccessToken creds now cache (.ok resp :: rest)).outcome
        = Except.ok resp.accessToken
    ∧ lookupKey (getValidAccessToken creds now cache (.ok resp :: rest)).cache
          (getCacheKey creds)
        = some ⟨resp.accessToken, resp.refreshToken, now + resp.expiresIn * 1000 - 60000⟩
    ∧ ∀ (now2 : Int) (script2 : List TokenEndpointResult),
        now2 < now + resp.expiresIn * 1000 - 60000 →
        (getValidAccessToken creds now2
            (getValidAccessToken creds now cache (.ok resp :: rest)).cache script2).calls = []
        ∧ (getValidAccessToken creds now2
            (getValidAccessToken creds now cache (.ok resp :: rest)).cache script2).outcome
            = Except.ok resp.accessToken
        ∧ (getValidAccessToken creds now2
            (getValidAccessToken creds now cache (.ok resp :: rest)).cache script2).cache
            = (getValidAccessToken creds now cache (.ok resp :: rest)).cache := by
  have hstep : authAttemptBody creds now cache (.ok resp :: rest)
      = ⟨Except.ok resp.accessToken,
         upsert cache (getCacheKey creds)
           ⟨resp.accessToken, resp.refreshToken, now + resp.expiresIn * 1000 - 60000⟩,
         [AuthHttpCall.tokenRequest (stripTrailingSlash creds.baseUrl ++ "/access-tokens")
            creds.username],
         rest⟩ := by
    rw [authAttemptBody_of_no_entry creds now cache _ hfirst]
    simp [takeNet, getNewAccessToken, hresp, TOKEN_SAFETY_MARGIN]
  have hr1 : getValidAccessToken creds now cache (.ok resp :: rest)
      = ⟨Except.ok resp.accessToken,
         upsert cache (getCacheKey creds)
           ⟨resp.accessToken, resp.refreshToken, now + resp.expiresIn * 1000 - 60000⟩,
         [AuthHttpCall.tokenRequest (stripTrailingSlash creds.baseUrl ++ "/access-tokens")
            creds.username],
         [], 1⟩ := by
    rw [getValidAccessToken_eq_loop creds now cache _ hv,
      show MAX_RETRY_ATTEMPTS = 2 + 1 from rfl,
      authRetryLoop_of_ok creds now 2 1 cache (.ok resp :: rest) resp.accessToken
        (by rw [hstep]),
      hstep]
  refine ⟨by rw [hr1], by rw [hr1], by rw [hr1]; simp, ?_⟩
  intro now2 script2 h2
  rw [hr1]
  have hv2 : isTokenValid now2
      (⟨resp.accessToken, resp.refreshToken, now + resp.expiresIn * 1000 - 60000⟩ :
        SprykerTokenCache) = true := by
    simp [isTokenValid, h2]
  have hstep2 : authAttemptBody creds now2
      (upsert cache (getCacheKey creds)
        ⟨resp.accessToken, resp.refreshToken, now + resp.expiresIn * 1000 - 60000⟩) script2
      = ⟨Except.ok resp.accessToken,
         upsert cache (getCacheKey creds)
           ⟨resp.accessToken, resp.refreshToken, now + resp.expiresIn * 1000 - 60000⟩,
         [], script2⟩ :=
    authAttemptBody_of_valid_entry creds now2 _ script2 _ (lookupKey_upsert_self _ _ _) hv2
  have hr2 : getValidAccessToken creds now2
      (upsert cache (getCacheKey creds)
        ⟨resp.accessToken, resp.refreshToken, now + resp.expiresIn * 1000 - 60000⟩) script2
      = ⟨Except.ok resp.accessToken,
         upsert cache (getCacheKey creds)
           ⟨resp.accessToken, resp.refreshToken, now + resp.expiresIn * 1000 - 60000⟩,
         [], [], 1⟩ := by
    rw [getValidAccessToken_eq_loop creds now2 _ script2 hv,
      show MAX_RETRY_ATTEMPTS = 2 + 1 from rfl,
      authRetryLoop_of_ok creds now2 2 1 _ script2 resp.accessToken (by rw [hstep2]),
      hstep2]
  rw [hr2]
  exact ⟨rfl, rfl, rfl⟩

/-- Witness for C1: empty cache, a successful token issuance at `now = 0`
with `expiresIn = 28800`, and a cache hit at `now2 = 1000`. -/
theorem first_call_one_request_then_cache_hit_witness :
    validateCredentials ⟨"https://glue.example.com", "user", "pw"⟩ = none
    ∧ lookupKey ([] : TokenCacheMap)
        (getCacheKey ⟨"https://glue.example.com", "user", "pw"⟩) = none
    ∧ isValidTokenResponse ⟨"tokenA", "tokenR", 28800⟩ = true
    ∧ (1000 : Int) < 0 + 28800 * 1000 - 60000
    ∧ (getValidAccessToken ⟨"https://glue.example.com", "user", "pw"⟩ 0 []
        [.ok ⟨"tokenA", "tokenR", 28800⟩]).calls
        = [AuthHttpCall.tokenRequest "https://glue.example.com/access-tokens" "user"]
    ∧ (getValidAccessToken ⟨"https://glue.example.com", "user", "pw"⟩ 1000
        (getValidAccessToken ⟨"https://glue.example.com", "user", "pw"⟩ 0 []
          [.ok ⟨"tokenA", "tokenR", 28800⟩]).cache []).calls = [] := by
  refine ⟨rfl, rfl, rfl, by decide, ?_, ?_⟩
  · have h := (first_call_one_request_then_cache_hit
      ⟨"https://glue.example.com", "user", "pw"⟩ 0 [] ⟨"tokenA", "tokenR", 28800⟩ []
      rfl rfl rfl).1
    simpa using h
  · have h := ((first_call_one_request_then_cache_hit
      ⟨"https://glue.example.com", "user", "pw"⟩ 0 [] ⟨"tokenA", "tokenR", 28800⟩ []
      rfl rfl rfl).2.2.2 1000 [] (by decide)).1
    exact h

theorem getNewAccessToken_error_cache (creds : SprykerCredentials) (now : Int)
    (cache : TokenCacheMap) (net : TokenEndpointResult) (msg : String)
    (h : (getNewAccessToken creds now cache net).1 = Except.error msg) :
    (getNewAccessToken creds now cache net).2 = cache := by
  cases net with
  | ok resp =>
    by_cases hvr : isValidTokenResponse resp = true
    · simp [getNewAccessToken, hvr] at h
    · simp [getNewAccessToken, hvr]
  | err sc code m => simp [getNewAccessToken]

/-- From a cache that has no entry under the credential key, the retry loop
only ever performs full authentications (`POST .../access-tokens`). -/
theorem authRetryLoop_calls_all_tokenRequest (creds : SprykerCredentials) (now : Int)
    (rem : Nat) :
    ∀ (attempt : Nat) (cache : TokenCacheMap) (script : List TokenEndpointResult),
    lookupKey cache (getCacheKey creds) = none →
    ((authRetryLoop creds now rem attempt cache script).calls).all
      AuthHttpCall.isTokenRequest = true := by
  induction rem with
  | zero =>
    intro attempt cache script h
    simp [authRetryLoop]
  | succ rem ih =>
    intro attempt cache script h
    have hstep := authAttemptBody_of_no_entry creds now cache script h
    rcases hout : (getNewAccessToken creds now cache (takeNet script).1).1 with m | tok
    · by_cases hat : attempt = MAX_RETRY_ATTEMPTS
      · subst hat
        rw [authRetryLoop_of_error_last creds now rem cache script m (by rw [hstep]; exact hout)]
        simp [hstep, AuthHttpCall.isTokenRequest]
      · rw [authRetryLoop_of_error_cont creds now rem attempt cache script m
          (by rw [hstep]; exact hout) hat]
        have hc2 : lookupKey (authAttemptBody creds now cache script).cache
            (getCacheKey creds) = none := by
          rw [hstep]
          show lookupKey (getNewAccessToken creds now cache (takeNet script).1).2
            (getCacheKey creds) = none
          rw [getNewAccessToken_error_cache creds now cache (takeNet script).1 m hout]
          exact h
        have hrest := ih (attempt + 1) (authAttemptBody creds now cache script).cache
          (authAttemptBody creds now cache script).script hc2
        simp only [List.all_append, hrest, Bool.and_true]
        rw [hstep]
        simp [AuthHttpCall.isTokenRequest]
    · rw [authRetryLoop_of_ok creds now rem attempt cache script tok (by rw [hstep]; exact hout)]
      rw [hstep]
      simp [AuthHttpCall.isTokenRequest]

/-- C3 (amended): for a credential whose cached entry is expired
(`expiresAt ≤ now`) and holds a refresh token, `getValidAccessToken`
attempts exactly one refresh request before any full re-authentication: the
first network call is the refresh POST and every later call is a full
authentication; on refresh success the cache entry is replaced and the new
access token returned; on refresh failure the stale entry is deleted and
the call falls through to full re-authentication. -/
theorem expired_entry_refresh_once (creds : SprykerCredentials) (now : Int)
    (cache : TokenCacheMap) (entry : SprykerTokenCache) (script : List TokenEndpointResult)
    (hv : validateCredentials creds = none)
    (hc : lookupKey cache (getCacheKey creds) = some entry)
    (hexp : entry.expiresAt ≤ now)
    (hrt : entry.refreshToken ≠ "") :
    (getValidAccessToken creds now cache script).calls.head?
        = some (AuthHttpCall.refreshRequest
            (stripTrailingSlash creds.baseUrl ++ "/refresh-tokens") entry.refreshToken)
    ∧ ((getValidAccessToken creds now cache script).calls.tail.all
          AuthHttpCall.isTokenRequest = true)
    ∧ (∀ (resp : SprykerTokenAttributes) (rest : List TokenEndpointResult),
        script = .ok resp :: rest → isValidTokenResponse resp = true →
        (getValidAccessToken creds now cache script).calls
            = [AuthHttpCall.refreshRequest
                (stripTrailingSlash creds.baseUrl ++ "/refresh-tokens") entry.refreshToken]
        ∧ (getValidAccessToken creds now cache script).outcome = Except.ok resp.accessToken
        ∧ lookupKey (getValidAccessToken creds now cache script).cache (getCacheKey creds)
            = some ⟨resp.accessToken, resp.refreshToken, now + resp.expiresIn * 1000 - 60000⟩)
    ∧ (∀ (sc : Option Nat) (code : Option String) (msg : String)
          (rest : List TokenEndpointResult),
        script = .err sc code msg :: rest →
        (refreshAccessToken creds now cache (.err sc code msg)).2
            = deleteKey cache (getCacheKey creds)
        ∧ (∀ (resp : SprykerTokenAttributes) (rest2 : List TokenEndpointResult),
            rest = .ok resp :: rest2 → isValidTokenResponse resp = true →
            (getValidAccessToken creds now cache script).calls
                = [AuthHttpCall.refreshRequest
                    (stripTrailingSlash creds.baseUrl ++ "/refresh-tokens") entry.refreshToken,
                   AuthHttpCall.tokenRequest
                    (stripTrailingSlash creds.baseUrl ++ "/access-tokens") creds.username]
            ∧ (getValidAccessToken creds now cache script).outcome
                = Except.ok resp.accessToken)) := by
  have hnv : isTokenValid now entry = false := by
    simp only [isTokenValid, decide_eq_false_iff_not, not_lt]
    exact hexp
  have hb : (entry.refreshToken != "" && shouldTryRefresh now entry) = true := by
    have h1 : (entry.refreshToken != "") = true := by simpa [bne_iff_ne] using hrt
    have h2 : shouldTryRefresh now entry = true := by
      simp only [shouldTryRefresh, decide_eq_true_eq]
      omega
    rw [h1, h2]
    rfl
  have hcalls : ∃ l, (getValidAccessToken creds now cache script).calls
      = AuthHttpCall.refreshRequest (stripTrailingSlash creds.baseUrl ++ "/refresh-tokens")
          entry.refreshToken :: l
      ∧ l.all AuthHttpCall.isTokenRequest = true := by
    rw [getValidAccessToken_eq_loop creds now cache script hv,
      show MAX_RETRY_ATTEMPTS = 2 + 1 from rfl]
    rcases hr : refreshAccessToken creds now cache (takeNet script).1 with ⟨out1, cache1⟩
    cases out1 with
    | ok tok =>
      have hstep := authAttemptBody_of_refresh_ok creds now cache script entry tok cache1
        hc hnv hb hr
      rw [authRetryLoop_of_ok creds now 2 1 cache script tok (by rw [hstep]), hstep]
      exact ⟨[], rfl, rfl⟩
    | error e =>
      have hstep := authAttemptBody_of_refresh_err creds now cache script entry e cache1
        hc hnv hb hr
      rcases hout2 : (getNewAccessToken creds now (deleteKey cache1 (getCacheKey creds))
          (takeNet (takeNet script).2).1).1 with m2 | tok2
      · rw [authRetryLoop_of_error_cont creds now 2 1 cache script m2
          (by rw [hstep]; exact hout2) (by decide)]
        have hc2 : lookupKey (authAttemptBody creds now cache script).cache
            (getCacheKey creds) = none := by
          rw [hstep]
          show lookupKey (getNewAccessToken creds now (deleteKey cache1 (getCacheKey creds))
            (takeNet (takeNet script).2).1).2 (getCacheKey creds) = none
          rw [getNewAccessToken_error_cache creds now _ _ m2 hout2]
          exact lookupKey_deleteKey_self _ _
        have hrest := authRetryLoop_calls_all_tokenRequest creds now 2 2
          (authAttemptBody creds now cache script).cache
          (authAttemptBody creds now cache script).script hc2
        refine ⟨AuthHttpCall.tokenRequest (stripTrailingSlash creds.baseUrl ++ "/access-tokens")
          creds.username ::
            (authRetryLoop creds now 2 2 (authAttemptBody creds now cache script).cache
              (authAttemptBody creds now cache script).script).calls, ?_, ?_⟩
        · show (authAttemptBody creds now cache script).calls ++
            (authRetryLoop creds now 2 2 (authAttemptBody creds now cache script).cache
              (authAttemptBody creds now cache script).script).calls = _
          rw [hstep]
          rfl
        · simp [hrest, AuthHttpCall.isTokenRequest]
      · rw [authRetryLoop_of_ok creds now 2 1 cache script tok2 (by rw [hstep]; exact hout2)]
        refine ⟨[AuthHttpCall.tokenRequest (stripTrailingSlash creds.baseUrl ++ "/access-tokens")
          creds.username], ?_, ?_⟩
        · rw [hstep]
        · simp [AuthHttpCall.isTokenRequest]
  obtain ⟨l, hl, hall⟩ := hcalls
  refine ⟨by rw [hl]; rfl, by rw [hl]; exact hall, ?_, ?_⟩
  · intro resp rest hscript hvalid
    subst hscript
    have hr : refreshAccessToken creds now cache (takeNet (TokenEndpointResult.ok resp :: rest)).1
        = (Except.ok resp.accessToken,
           upsert cache (getCacheKey creds)
             ⟨resp.accessToken, resp.refreshToken, now + resp.expiresIn * 1000 - 60000⟩) := by
      simp [takeNet, refreshAccessToken, hvalid, TOKEN_SAFETY_MARGIN]
    have hstep := authAttemptBody_of_refresh_ok creds now cache
      (TokenEndpointResult.ok resp :: rest) entry resp.accessToken _ hc hnv hb hr
    have hfull : getValidAccessToken creds now cache (TokenEndpointResult.ok resp :: rest)
        = ⟨Except.ok resp.accessToken,
           upsert cache (getCacheKey creds)
             ⟨resp.accessToken, resp.refreshToken, now + resp.expiresIn * 1000 - 60000⟩,
           [AuthHttpCall.refreshRequest (stripTrailingSlash creds.baseUrl ++ "/refresh-tokens")
              entry.refreshToken], [], 1⟩ := by
      rw [getValidAccessToken_eq_loop creds now cache _ hv,
        show MAX_RETRY_ATTEMPTS = 2 + 1 from rfl,
        authRetryLoop_of_ok creds now 2 1 cache _ resp.accessToken (by rw [hstep]), hstep]
    rw [hfull]
    exact ⟨rfl, rfl, lookupKey_upsert_self _ _ _⟩
  · intro sc code msg rest hscript
    refine ⟨rfl, ?_⟩
    intro resp rest2 hrest2 hvalid
    subst hscript
    subst hrest2
    have hr : refreshAccessToken creds now cache
        (takeNet (TokenEndpointResult.err sc code msg :: TokenEndpointResult.ok resp :: rest2)).1
        = (Except.error
            (if sc = some 401 then "Refresh token is invalid or expired"
             else "Failed to refresh access token: " ++ msg),
           deleteKey cache (getCacheKey creds)) := rfl
    have hstep := authAttemptBody_of_refresh_err creds now cache
      (TokenEndpointResult.err sc code msg :: TokenEndpointResult.ok resp :: rest2) entry _ _
      hc hnv hb hr
    have hacq : (getNewAccessToken creds now
        (deleteKey (deleteKey cache (getCacheKey creds)) (getCacheKey creds))
        (TokenEndpointResult.ok resp)).1 = Except.ok resp.accessToken := by
      simp [getNewAccessToken, hvalid]
    have hfull := authRetryLoop_of_ok creds now 2 1 cache
      (TokenEndpointResult.err sc code msg :: TokenEndpointResult.ok resp :: rest2)
      resp.accessToken (by rw [hstep]; exact hacq)
    rw [getValidAccessToken_eq_loop creds now cache _ hv,
      show MAX_RETRY_ATTEMPTS = 2 + 1 from rfl, hfull, hstep]
    exact ⟨rfl, rfl⟩

/-- Counterexample to C3 as stated: an entry that is within 5 minutes of
expiry but still valid (`now = 0 < expiresAt = 120000 < 300000`) and holds a
refresh token is returned as a cache hit — zero network requests, no refresh
attempt — rather than triggering the claimed refresh. -/
theorem near_expiry_valid_entry_not_refreshed :
    (getValidAccessToken ⟨"https://glue.example.com", "user", "pw"⟩ 0
        [(getCacheKey ⟨"https://glue.example.com", "user", "pw"⟩,
          ⟨"cachedTok", "cachedRef", 120000⟩)] []).calls = []
    ∧ (getValidAccessToken ⟨"https://glue.example.com", "user", "pw"⟩ 0
        [(getCacheKey ⟨"https://glue.example.com", "user", "pw"⟩,
          ⟨"cachedTok", "cachedRef", 120000⟩)] []).outcome = Except.ok "cachedTok"
    ∧ (getValidAccessToken ⟨"https://glue.example.com", "user", "pw"⟩ 0
        [(getCacheKey ⟨"https://glue.example.com", "user", "pw"⟩,
          ⟨"cachedTok", "cachedRef", 120000⟩)] []).cache
        = [(getCacheKey ⟨"https://glue.example.com", "user", "pw"⟩,
            ⟨"cachedTok", "cachedRef", 120000⟩)] :=
  ⟨rfl, rfl, rfl⟩

/-- Witness for the amended C3: an expired entry with a refresh token, and a
successful scripted refresh. -/
theorem expired_entry_refresh_once_witness :
    validateCredentials ⟨"https://glue.example.com", "user", "pw"⟩ = none
    ∧ lookupKey [(getCacheKey ⟨"https://glue.example.com", "user", "pw"⟩,
          (⟨"oldTok", "oldRef", 500⟩ : SprykerTokenCache))]
        (getCacheKey ⟨"https://glue.example.com", "user", "pw"⟩)
        = some ⟨"oldTok", "oldRef", 500⟩
    ∧ ((⟨"oldTok", "oldRef", 500⟩ : SprykerTokenCache).expiresAt ≤ (1000 : Int))
    ∧ (⟨"oldTok", "oldRef", 500⟩ : SprykerTokenCache).refreshToken ≠ ""
    ∧ (getValidAccessToken ⟨"https://glue.example.com", "user", "pw"⟩ 1000
        [(getCacheKey ⟨"https://glue.example.com", "user", "pw"⟩, ⟨"oldTok", "oldRef", 500⟩)]
        [.ok ⟨"newTok", "newRef", 28800⟩]).calls
        = [AuthHttpCall.refreshRequest "https://glue.example.com/refresh-tokens" "oldRef"]
    ∧ (getValidAccessToken ⟨"https://glue.example.com", "user", "pw"⟩ 1000
        [(getCacheKey ⟨"https://glue.example.com", "user", "pw"⟩, ⟨"oldTok", "oldRef", 500⟩)]
        [.ok ⟨"newTok", "newRef", 28800⟩]).outcome = Except.ok "newTok" := by
  have h := (expired_entry_refresh_once ⟨"https://glue.example.com", "user", "pw"⟩ 1000
    [(getCacheKey ⟨"https://glue.example.com", "user", "pw"⟩, ⟨"oldTok", "oldRef", 500⟩)]
    ⟨"oldTok", "oldRef", 500⟩ [.ok ⟨"newTok", "newRef", 28800⟩]
    rfl rfl (by decide) (by decide)).2.2.1 ⟨"newTok", "newRef", 28800⟩ [] rfl rfl
  exact ⟨rfl, rfl, by decide, by decide, h.1, h.2.1⟩

/-- Invariants of the retry loop over the configurations it is actually
entered with (`attempt + rem = MAX_RETRY_ATTEMPTS + 1`, both positive):
between one and `rem` iterations run, backoff delays are
`2^(attempt-1), 2^attempt, ...` seconds, every failure is retried until the
final attempt, and an error outcome is always the final-attempt wrap. -/
theorem authRetryLoop_policy (creds : SprykerCredentials) (now : Int) :
    ∀ (rem attempt : Nat) (cache : TokenCacheMap) (script : List TokenEndpointResult),
    1 ≤ rem → 1 ≤ attempt → attempt + rem = MAX_RETRY_ATTEMPTS + 1 →
    1 ≤ (authRetryLoop creds now rem attempt cache script).attempts
    ∧ (authRetryLoop creds now rem attempt cache script).attempts ≤ rem
    ∧ (authRetryLoop creds now rem attempt cache script).delaysMs
        = (List.range ((authRetryLoop creds now rem attempt cache script).attempts - 1)).map
            (fun i => 2 ^ (attempt - 1 + i) * 1000)
    ∧ (∀ msg, (authRetryLoop creds now rem attempt cache script).outcome = Except.error msg →
        (authRetryLoop creds now rem attempt cache script).attempts = rem
        ∧ ∃ m, msg = "Authentication failed after " ++ natToString MAX_RETRY_ATTEMPTS ++
            " attempts: " ++ m) := by
  intro rem
  induction rem with
  | zero =>
    intro attempt cache script h1 h0 h2
    omega
  | succ rem ih =>
    intro attempt cache script h1 h0 h2
    rcases hout : (authAttemptBody creds now cache script).outcome with m | tok
    · by_cases hat : attempt = MAX_RETRY_ATTEMPTS
      · have hrem : rem = 0 := by omega
        subst hat
        subst hrem
        rw [authRetryLoop_of_error_last creds now 0 cache script m hout]
        refine ⟨by simp, by simp, by simp, ?_⟩
        intro msg hmsg
        simp only at hmsg
        refine ⟨by simp, m, ?_⟩
        injection hmsg with hmsg
        exact hmsg.symm
      · rw [authRetryLoop_of_error_cont creds now rem attempt cache script m hout hat]
        obtain ⟨ih1, ih2, ih3, ih4⟩ := ih (attempt + 1)
          (authAttemptBody creds now cache script).cache
          (authAttemptBody creds now cache script).script (by omega) (by omega) (by omega)
        refine ⟨by simp, by simp; omega, ?_, ?_⟩
        · simp only
          rw [ih3]
          have hatt := ih1
          rw [show (authRetryLoop creds now rem (attempt + 1)
              (authAttemptBody creds now cache script).cache
              (authAttemptBody creds now cache script).script).attempts + 1 - 1
            = ((authRetryLoop creds now rem (attempt + 1)
                (authAttemptBody creds now cache script).cache
                (authAttemptBody creds now cache script).script).attempts - 1) + 1 by omega]
          rw [List.range_succ_eq_map, List.map_cons, List.map_map]
          congr 1
          apply List.map_congr_left
          intro a ha
          simp only [Function.comp_apply]
          have he : attempt + 1 - 1 + a = attempt - 1 + Nat.succ a := by omega
          rw [he]
        · intro msg hmsg
          simp only at hmsg
          obtain ⟨hih1, hih2⟩ := ih4 msg hmsg
          exact ⟨by simp [hih1], hih2⟩
    · rw [authRetryLoop_of_ok creds now rem attempt cache script tok hout]
      refine ⟨by simp, by simp, by simp, ?_⟩
      intro msg hmsg
      simp only at hmsg
      cases hmsg

/-- C4 (amended): `getValidAccessToken` wraps the
lookup/refresh/authenticate sequence in a retry loop of at most 3 attempts,
delaying `2^(attempt-1)` seconds between attempts, and retries every failed
attempt (not only transient failures); on exhausting all attempts it raises
an authentication error that states the attempt count and wraps the last
attempt's failure. -/
theorem auth_retry_policy (creds : SprykerCredentials) (now : Int) (cache : TokenCacheMap)
    (script : List TokenEndpointResult) (hv : validateCredentials creds = none) :
    1 ≤ (getValidAccessToken creds now cache script).attempts
    ∧ (getValidAccessToken creds now cache script).attempts ≤ 3
    ∧ (getValidAccessToken creds now cache script).delaysMs
        = (List.range ((getValidAccessToken creds now cache script).attempts - 1)).map
            (fun i => 2 ^ i * 1000)
    ∧ (∀ msg, (getValidAccessToken creds now cache script).outcome = Except.error msg →
        (getValidAccessToken creds now cache script).attempts = 3
        ∧ ∃ m, msg = "Authentication failed after 3 attempts: " ++ m)
    ∧ (∀ m1 m2 m3,
        (authAttemptBody creds now cache script).outcome = Except.error m1 →
        (authAttemptBody creds now (authAttemptBody creds now cache script).cache
            (authAttemptBody creds now cache script).script).outcome = Except.error m2 →
        (authAttemptBody creds now
            (authAttemptBody creds now (authAttemptBody creds now cache script).cache
              (authAttemptBody creds now cache script).script).cache
            (authAttemptBody creds now (authAttemptBody creds now cache script).cache
              (authAttemptBody creds now cache script).script).script).outcome
            = Except.error m3 →
        (getValidAccessToken creds now cache script).outcome
            = Except.error ("Authentication failed after 3 attempts: " ++ m3)
        ∧ (getValidAccessToken creds now cache script).delaysMs = [1000, 2000]) := by
  have hfun : (fun i => 2 ^ (1 - 1 + i) * 1000) = (fun i : Nat => 2 ^ i * 1000) := by
    funext i
    norm_num
  obtain ⟨p1, p2, p3, p4⟩ := authRetryLoop_policy creds now MAX_RETRY_ATTEMPTS 1 cache script
    (by decide) (by decide) (by decide)
  rw [getValidAccessToken_eq_loop creds now cache script hv]
  refine ⟨p1, p2, by rw [p3, hfun], ?_, ?_⟩
  · intro msg hmsg
    obtain ⟨q1, m, hm⟩ := p4 msg hmsg
    exact ⟨q1, m, hm⟩
  · intro m1 m2 m3 h1 h2 h3
    have e1 : authRetryLoop creds now 3 1 cache script
        = ⟨(authRetryLoop creds now 2 2 (authAttemptBody creds now cache script).cache
              (authAttemptBody creds now cache script).script).outcome,
           (authRetryLoop creds now 2 2 (authAttemptBody creds now cache script).cache
              (authAttemptBody creds now cache script).script).cache,
           (authAttemptBody creds now cache script).calls ++
             (authRetryLoop creds now 2 2 (authAttemptBody creds now cache script).cache
                (authAttemptBody creds now cache script).script).calls,
           2 ^ (1 - 1) * 1000 ::
             (authRetryLoop creds now 2 2 (authAttemptBody creds now cache script).cache
                (authAttemptBody creds now cache script).script).delaysMs,
           (authRetryLoop creds now 2 2 (authAttemptBody creds now cache script).cache
              (authAttemptBody creds now cache script).script).attempts + 1⟩ :=
      authRetryLoop_of_error_cont creds now 2 1 cache script m1 h1 (by decide)
    have e2 : authRetryLoop creds now 2 2 (authAttemptBody creds now cache script).cache
          (authAttemptBody creds now cache script).script
        = ⟨(authRetryLoop creds now 1 3
              (authAttemptBody creds now (authAttemptBody creds now cache script).cache
                (authAttemptBody creds now cache script).script).cache
              (authAttemptBody creds now (authAttemptBody creds now cache script).cache
                (authAttemptBody creds now cache script).script).script).outcome,
           (authRetryLoop creds now 1 3
              (authAttemptBody creds now (authAttemptBody creds now cache script).cache
                (authAttemptBody creds now cache script).script).cache
              (authAttemptBody creds now (authAttemptBody creds now cache script).cache
                (authAttemptBody creds now cache script).script).script).cache,
           (authAttemptBody creds now (authAttemptBody creds now cache script).cache
              (authAttemptBody creds now cache script).script).calls ++
             (authRetryLoop creds now 1 3
                (authAttemptBody creds now (authAttemptBody creds now cache script).cache
                  (authAttemptBody creds now cache script).script).cache
                (authAttemptBody creds now (authAttemptBody creds now cache script).cache
                  (authAttemptBody creds now cache script).script).script).calls,
           2 ^ (2 - 1) * 1000 ::
             (authRetryLoop creds now 1 3
                (authAttemptBody creds now (authAttemptBody creds now cache script).cache
                  (authAttemptBody creds now cache script).script).cache
                (authAttemptBody creds now (authAttemptBody creds now cache script).cache
                  (authAttemptBody creds now cache script).script).script).delaysMs,
           (authRetryLoop creds now 1 3
              (authAttemptBody creds now (authAttemptBody creds now cache script).cache
                (authAttemptBody creds now cache script).script).cache
              (authAttemptBody creds now (authAttemptBody creds now cache script).cache
                (authAttemptBody creds now cache script).script).script).attempts + 1⟩ :=
      authRetryLoop_of_error_cont creds now 1 2 (authAttemptBody creds now cache script).cache
        (authAttemptBody creds now cache script).script m2 h2 (by decide)
    have e3 : authRetryLoop creds now 1 3
          (authAttemptBody creds now (authAttemptBody creds now cache script).cache
            (authAttemptBody creds now cache script).script).cache
          (authAttemptBody creds now (authAttemptBody creds now cache script).cache
            (authAttemptBody creds now cache script).script).script
        = ⟨Except.error ("Authentication failed after " ++ natToString MAX_RETRY_ATTEMPTS ++
              " attempts: " ++ m3),
           (authAttemptBody creds now
              (authAttemptBody creds now (authAttemptBody creds now cache script).cache
                (authAttemptBody creds now cache script).script).cache
              (authAttemptBody creds now (authAttemptBody creds now cache script).cache
                (authAttemptBody creds now cache script).script).script).cache,
           (authAttemptBody creds now
              (authAttemptBody creds now (authAttemptBody creds now cache script).cache
                (authAttemptBody creds now cache script).script).cache
              (authAttemptBody creds now (authAttemptBody creds now cache script).cache
                (authAttemptBody creds now cache script).script).script).calls, [], 1⟩ :=
      authRetryLoop_of_error_last creds now 0
        (authAttemptBody creds now (authAttemptBody creds now cache script).cache
          (authAttemptBody creds now cache script).script).cache
        (authAttemptBody creds now (authAttemptBody creds now cache script).cache
          (authAttemptBody creds now cache script).script).script m3 h3
    rw [show MAX_RETRY_ATTEMPTS = 3 from rfl, e1, e2, e3]
    constructor
    · rfl
    · simp only
      decide

/-- Counterexample to C4 as stated: a non-transient failure — the token
endpoint rejecting the credentials with 401 ("Invalid username or
password") — is retried anyway: all three attempts issue the POST, with
backoff delays between them. -/
theorem non_transient_failure_retried :
    (getValidAccessToken ⟨"https://glue.example.com", "user", "pw"⟩ 0 []
        [.err (some 401) none "Unauthorized", .err (some 401) none "Unauthorized",
         .err (some 401) none "Unauthorized"]).calls
      = [AuthHttpCall.tokenRequest "https://glue.example.com/access-tokens" "user",
         AuthHttpCall.tokenRequest "https://glue.example.com/access-tokens" "user",
         AuthHttpCall.tokenRequest "https://glue.example.com/access-tokens" "user"]
    ∧ (getValidAccessToken ⟨"https://glue.example.com", "user", "pw"⟩ 0 []
        [.err (some 401) none "Unauthorized", .err (some 401) none "Unauthorized",
         .err (some 401) none "Unauthorized"]).delaysMs = [1000, 2000]
    ∧ (getValidAccessToken ⟨"https://glue.example.com", "user", "pw"⟩ 0 []
        [.err (some 401) none "Unauthorized", .err (some 401) none "Unauthorized",
         .err (some 401) none "Unauthorized"]).outcome
      = Except.error "Authentication failed after 3 attempts: Invalid username or password" :=
  ⟨rfl, rfl, rfl⟩

/-- Witness for the amended C4 at a concrete three-failure run. -/
theorem auth_retry_policy_witness :
    validateCredentials ⟨"https://glue.example.com", "user", "pw"⟩ = none
    ∧ (getValidAccessToken ⟨"https://glue.example.com", "user", "pw"⟩ 0 []
        [.err none (some "ETIMEDOUT") "timeout", .err none (some "ETIMEDOUT") "timeout",
         .err none (some "ETIMEDOUT") "timeout"]).attempts ≤ 3
    ∧ (getValidAccessToken ⟨"https://glue.example.com", "user", "pw"⟩ 0 []
        [.err none (some "ETIMEDOUT") "timeout", .err none (some "ETIMEDOUT") "timeout",
         .err none (some "ETIMEDOUT") "timeout"]).delaysMs
        = (List.range ((getValidAccessToken ⟨"https://glue.example.com", "user", "pw"⟩ 0 []
            [.err none (some "ETIMEDOUT") "timeout", .err none (some "ETIMEDOUT") "timeout",
             .err none (some "ETIMEDOUT") "timeout"]).attempts - 1)).map
            (fun i => 2 ^ i * 1000) := by
  have h := auth_retry_policy ⟨"https://glue.example.com", "user", "pw"⟩ 0 []
    [.err none (some "ETIMEDOUT") "timeout", .err none (some "ETIMEDOUT") "timeout",
     .err none (some "ETIMEDOUT") "timeout"] rfl
  exact ⟨rfl, h.2.1, h.2.2.1⟩

/-- C2 (amended): when a resource request fails with HTTP 401, the
executor clears the ENTIRE token cache (so the final cache is whatever the
re-authentication rebuilds from empty, not the original cache minus one
entry), re-acquires a token via the Auth Service, updates the request's
`Authorization` header to the fresh bearer token, and retries the transport
call exactly once — two transport calls in total; if the retry succeeds the
original caller receives that response, and if the retry fails the error
raised is `"Spryker API authentication failed after retry: ..."` wrapping
the retry's failure message. -/
theorem executor_401_retry (creds : SprykerCredentials) (now : Int)
    (authHeader : Option String) (cache : TokenCacheMap)
    (code : Option String) (msg : String) (t2 : HttpCallResult) (rest : List HttpCallResult)
    (authScript : List TokenEndpointResult) (tok : String)
    (hauth : (getValidAccessToken creds now [] authScript).outcome = Except.ok tok) :
    (executeSprykerRequest creds now authHeader cache
        (.err (some 401) code msg :: t2 :: rest) authScript).cache
        = (getValidAccessToken creds now [] authScript).cache
    ∧ (executeSprykerRequest creds now authHeader cache
        (.err (some 401) code msg :: t2 :: rest) authScript).authHeader
        = some ("Bearer " ++ tok)
    ∧ (executeSprykerRequest creds now authHeader cache
        (.err (some 401) code msg :: t2 :: rest) authScript).transportCalls = 2
    ∧ (executeSprykerRequest creds now authHeader cache
        (.err (some 401) code msg :: t2 :: rest) authScript).authCalls
        = (getValidAccessToken creds now [] authScript).calls
    ∧ (∀ body, t2 = .ok body →
        (executeSprykerRequest creds now authHeader cache
          (.err (some 401) code msg :: t2 :: rest) authScript).outcome = Except.ok body)
    ∧ (∀ sc2 code2 msg2, t2 = .err sc2 code2 msg2 →
        (executeSprykerRequest creds now authHeader cache
          (.err (some 401) code msg :: t2 :: rest) authScript).outcome
          = Except.error ("Spryker API authentication failed after retry: " ++ msg2)) := by
  cases t2 with
  | ok body =>
    refine ⟨?_, ?_, ?_, ?_, ?_, ?_⟩ <;>
      simp [executeSprykerRequest, hauth]
  | err sc2 code2 msg2 =>
    refine ⟨?_, ?_, ?_, ?_, ?_, ?_⟩ <;>
      simp [executeSprykerRequest, hauth]

/-- Counterexample to C2 as stated: after a 401 on a request for one
credential, the cache entry of a DIFFERENT credential key is also gone —
the executor wipes the whole cache rather than deleting only the relevant
entry. -/
theorem executor_401_deletes_other_entries :
    lookupKey
        [(getCacheKey ⟨"https://a.example.com", "u1", "pw1"⟩,
          (⟨"tokA", "refA", 100⟩ : SprykerTokenCache)),
         ("https://b.example.com:u2", ⟨"tokB", "refB", 999999999⟩)]
        "https://b.example.com:u2" = some ⟨"tokB", "refB", 999999999⟩
    ∧ (executeSprykerRequest ⟨"https://a.example.com", "u1", "pw1"⟩ 0 (some "Bearer tokA")
        [(getCacheKey ⟨"https://a.example.com", "u1", "pw1"⟩, ⟨"tokA", "refA", 100⟩),
         ("https://b.example.com:u2", ⟨"tokB", "refB", 999999999⟩)]
        [.err (some 401) none "Unauthorized", .ok (Value.obj [])]
        [.ok ⟨"newTok", "newRef", 28800⟩]).outcome = Except.ok (Value.obj [])
    ∧ lookupKey
        (executeSprykerRequest ⟨"https://a.example.com", "u1", "pw1"⟩ 0 (some "Bearer tokA")
          [(getCacheKey ⟨"https://a.example.com", "u1", "pw1"⟩, ⟨"tokA", "refA", 100⟩),
           ("https://b.example.com:u2", ⟨"tokB", "refB", 999999999⟩)]
          [.err (some 401) none "Unauthorized", .ok (Value.obj [])]
          [.ok ⟨"newTok", "newRef", 28800⟩]).cache
        "https://b.example.com:u2" = none :=
  ⟨rfl, rfl, rfl⟩

/-- Witness for the amended C2: a 401, a successful re-authentication, and a
successful retried transport call. -/
theorem executor_401_retry_witness :
    (getValidAccessToken ⟨"https://a.example.com", "u1", "pw1"⟩ 0 []
        [.ok ⟨"newTok", "newRef", 28800⟩]).outcome = Except.ok "newTok"
    ∧ (executeSprykerRequest ⟨"https://a.example.com", "u1", "pw1"⟩ 0 (some "Bearer tokA")
        [(getCacheKey ⟨"https://a.example.com", "u1", "pw1"⟩, ⟨"tokA", "refA", 100⟩)]
        [.err (some 401) none "Unauthorized", .ok (Value.obj [("data", Value.arr [])])]
        [.ok ⟨"newTok", "newRef", 28800⟩]).transportCalls = 2
    ∧ (executeSprykerRequest ⟨"https://a.example.com", "u1", "pw1"⟩ 0 (some "Bearer tokA")
        [(getCacheKey ⟨"https://a.example.com", "u1", "pw1"⟩, ⟨"tokA", "refA", 100⟩)]
        [.err (some 401) none "Unauthorized", .ok (Value.obj [("data", Value.arr [])])]
        [.ok ⟨"newTok", "newRef", 28800⟩]).authHeader = some ("Bearer " ++ "newTok")
    ∧ (executeSprykerRequest ⟨"https://a.example.com", "u1", "pw1"⟩ 0 (some "Bearer tokA")
        [(getCacheKey ⟨"https://a.example.com", "u1", "pw1"⟩, ⟨"tokA", "refA", 100⟩)]
        [.err (some 401) none "Unauthorized", .ok (Value.obj [("data", Value.arr [])])]
        [.ok ⟨"newTok", "newRef", 28800⟩]).outcome
        = Except.ok (Value.obj [("data", Value.arr [])]) := by
  have h := executor_401_retry ⟨"https://a.example.com", "u1", "pw1"⟩ 0 (some "Bearer tokA")
    [(getCacheKey ⟨"https://a.example.com", "u1", "pw1"⟩, ⟨"tokA", "refA", 100⟩)]
    none "Unauthorized" (.ok (Value.obj [("data", Value.arr [])])) []
    [.ok ⟨"newTok", "newRef", 28800⟩] "newTok" rfl
  exact ⟨rfl, h.2.2.1, h.2.1, h.2.2.2.2.1 (Value.obj [("data", Value.arr [])]) rfl⟩

/-- Witness for C8 with `fieldsToExtract = "name,url"` on a record carrying
`name`, `url`, `links` and `_raw`. -/
theorem field_extraction_correct_witness :
    ("name,url" : String) ≠ ""
    ∧ lookupKey
        (extractFields
          [("id", Value.str "1"), ("name", Value.str "Page 1"),
           ("url", Value.str "/page-1"), ("links", Value.obj []),
           ("_raw", Value.obj [])] "name,url") "links"
      = (if "links" ∈ parseFieldList "name,url"
            ∧ (lookupKey
                [("id", Value.str "1"), ("name", Value.str "Page 1"),
                 ("url", Value.str "/page-1"), ("links", Value.obj []),
                 ("_raw", Value.obj [])] "links").isSome
         then lookupKey
                [("id", Value.str "1"), ("name", Value.str "Page 1"),
                 ("url", Value.str "/page-1"), ("links", Value.obj []),
                 ("_raw", Value.obj [])] "links"
         else none) :=
  ⟨by decide,
   (field_extraction_correct
     [("id", Value.str "1"), ("name", Value.str "Page 1"), ("url", Value.str "/page-1"),
      ("links", Value.obj []), ("_raw", Value.obj [])] "name,url" "links" (by decide)).1⟩

end SprykerModel
